import Mathlib

/-!
Verification of the snapshot-delta-ranking pipeline of the nim_dashboard
repository (nim_core.py, nim_cli.py, nim_web.py).

The Python data is embedded shallowly:
* a snapshot is a timestamp plus an association list from entity key to a
  Metrics record; Python dict fields that may be missing become `Option`;
* the string sentinel used for missing deltas in the source becomes `none`;
* Python float percentages become exact rationals;
* `list.sort(key=..., reverse=True)`, a stable descending sort, is modelled
  by `List.insertionSort` with the relation `rankGE` (greater-or-equal on
  the delta field), which is the unique stable descending sort;
* file system reads and JSON parsing in `load_previous_data` are passed in
  as explicit parameters (`file : Option String`, a missing file being
  `none`, and `parse : String → Option Snapshot`, a JSON decode error
  being `none`).
-/

namespace NimDashboard

/-- Per-video metrics record of a snapshot (the values of the `videos` dict
in nim_core.py).  Every field is optional because snapshots are arbitrary
JSON dicts: the source tests key presence with `in` / `dict.get`. -/
structure Metrics where
  channel_name : Option String := none
  video_id : Option String := none
  views : Option Int := none
  likes : Option Int := none
  comments : Option Int := none
  subscribers : Option Int := none
  label : Option String := none
  deriving DecidableEq

/-- A snapshot: timestamp plus entity-key → Metrics map (insertion ordered,
as a Python dict is). -/
structure Snapshot where
  timestamp : String
  videos : List (String × Metrics)
  deriving DecidableEq

/-- One entry of the result of `compute_deltas_all`.  `none` models the
string sentinel standing for a missing value in the source. -/
structure Delta where
  views_delta : Option Int
  likes_delta : Option Int
  comments_delta : Option Int
  subscribers_delta : Option Int
  views_delta_pct : Option ℚ
  deriving DecidableEq

/-- The all-absent Delta (every field carries the absent marker). -/
def Delta.allNA : Delta := ⟨none, none, none, none, none⟩

/-- Result type of `compute_deltas_all`: entity-key → Delta map. -/
structure DeltaSet where
  videos : List (String × Delta)
  deriving DecidableEq

/-- One entry of the static `TRACKED_VIDEOS` registry in nim_core.py. -/
structure TrackedMeta where
  channel_name : String
  video_id : String
  label : String
  deriving DecidableEq

/-- The static tracked-video registry `TRACKED_VIDEOS` of nim_core.py. -/
def TRACKED_VIDEOS : List (String × TrackedMeta) :=
  [ ("hasan_x8d6K399WW4",
     ⟨"HasanAbi", "x8d6K399WW4", "HasanAbi – we are Charlie Kirk"⟩),
    ("boyboy_Sfrjpy5cJCs",
     ⟨"Boy Boy", "Sfrjpy5cJCs", "BoyBoy – I snuck into a major arms dealer conference"⟩),
    ("NavaraMedia_UC2VT3RkiYo",
     ⟨"Navara Media", "UC2VT3RkiYo", "NavaraMedia – The blueprint for an actual revolution"⟩),
    ("Zeteo_MEtvCw1LzRc",
     ⟨"Zeteo", "MEtvCw1LzRc", "Zeteo – Will Mamdami Challenge the Democratic Leadership"⟩),
    ("SecularTalk_0YrNUANVel8",
     ⟨"Secular Talk", "0YrNUANVel8", "Secular Talk – The Rogansphere is fucked"⟩),
    ("PuntersPolitics_3oLIodU0BCU",
     ⟨"Punters Politics", "3oLIodU0BCU", "Punters Politics – Australia gets played by Santos"⟩),
    ("TimDillon_khKJS50odJw",
     ⟨"Tim Dillon", "khKJS50odJw", "Tim Dillon – Wicked Terrible Life Golden Age of Travel"⟩),
    ("LBC_DAshS2Tl4yw",
     ⟨"LBC", "DAshS2Tl4yw", "LBC – A plan translated from Russian"⟩),
    ("CaspianReport_cVCDjEfPzII",
     ⟨"Caspian Report", "cVCDjEfPzII", "Caspian Report – Vietnam is beating China at its own game"⟩),
    ("TuckerCarlson_rDOsm-CYUwQ",
     ⟨"Tucker Carlson", "rDOsm-CYUwQ", "Tucker Carlson – Testing Piers Morgan free speech"⟩),
    ("AlexJones_NIRVzbgYk0s",
     ⟨"Alex Jones", "NIRVzbgYk0s", "Alex Jones – Deep State Plotting to overthrow state"⟩),
    ("BenShapiro_R5qWmHn7SUY",
     ⟨"Ben Shapiro", "R5qWmHn7SUY", "Ben Shapiro – Bannon Epstein connection revealed"⟩),
    ("MattWalsh_YMsJGnn-h_4",
     ⟨"Matt Walsh", "YMsJGnn-h_4", "Matt Walsh – Ken Burns lies revealed"⟩),
    ("TimPool_Gku5vUy0K88",
     ⟨"Tim Pool", "Gku5vUy0K88", "Tim Pool – MAGA Civil War"⟩),
    ("BennyJohnson_Uu7PamYxEHA",
     ⟨"Benny Johnson", "Uu7PamYxEHA",
      "Benny Johnson – Trump advisor bombshell Somali fraud scandal in Minnesota"⟩),
    ("Flagrant_buIc5vRqWOQ",
     ⟨"Flagrant", "buIc5vRqWOQ", "Flagrant – America vs Arabic culture"⟩),
    ("TheoVon_SDq7akQIPMw",
     ⟨"Theo Von", "SDq7akQIPMw", "Theo Von – This Past Weekend 626"⟩) ]

/-- The inner `_delta(field)` closure of `compute_deltas_all`: absent unless
the field is present in both the current and the previous Metrics, else the
signed difference. -/
def deltaField (field : Metrics → Option Int) (curr_metrics prev_metrics : Metrics) :
    Option Int :=
  match field curr_metrics, field prev_metrics with
  | some c, some p => some (c - p)
  | _, _ => none

/-- Body of the per-key loop of `compute_deltas_all` (nim_core.py lines
223-262): all-absent when the key is missing from the previous videos map,
otherwise the four field deltas plus the guarded percentage delta. -/
def deltaFor (prev_videos : List (String × Metrics)) (video_key : String)
    (curr_metrics : Metrics) : Delta :=
  match prev_videos.lookup video_key with
  | none => Delta.allNA
  | some prev_metrics =>
    let views_delta := deltaField Metrics.views curr_metrics prev_metrics
    let likes_delta := deltaField Metrics.likes curr_metrics prev_metrics
    let comments_delta := deltaField Metrics.comments curr_metrics prev_metrics
    let subs_delta := deltaField Metrics.subscribers curr_metrics prev_metrics
    let views_delta_pct : Option ℚ :=
      match views_delta with
      | some vd =>
        match prev_metrics.views with
        | some pv => if 0 < pv then some (((vd : ℚ) / (pv : ℚ)) * 100) else none
        | none => none
      | none => none
    ⟨views_delta, likes_delta, comments_delta, subs_delta, views_delta_pct⟩

/-- `compute_deltas_all` of nim_core.py.  A previous snapshot that is absent
(`None`, or a dict without a `videos` entry) yields an all-absent Delta for
every key of the current snapshot. -/
def compute_deltas_all (previous_snapshot : Option Snapshot)
    (current_snapshot : Snapshot) : DeltaSet :=
  match previous_snapshot with
  | none => ⟨current_snapshot.videos.map (fun p => (p.1, Delta.allNA))⟩
  | some prev =>
    ⟨current_snapshot.videos.map (fun p => (p.1, deltaFor prev.videos p.1 p.2))⟩

/-- A row of the ranking produced by `get_top_videos_by_delta`. -/
structure RankedRow where
  video_key : String
  channel_name : String
  video_id : String
  label : String
  current_value : Int
  delta : ℚ
  deriving DecidableEq

/-- `delta_entry.get(metric, sentinel)` of nim_core.py line 594: look the
requested metric name up in a Delta entry; an unknown metric name, like an
absent field value, yields the absent marker.  Integer deltas are cast to
the common numeric type used for ranking. -/
def Delta.getMetric (d : Delta) (metric : String) : Option ℚ :=
  if metric = "views_delta" then d.views_delta.map (fun z => (z : ℚ))
  else if metric = "likes_delta" then d.likes_delta.map (fun z => (z : ℚ))
  else if metric = "comments_delta" then d.comments_delta.map (fun z => (z : ℚ))
  else if metric = "subscribers_delta" then d.subscribers_delta.map (fun z => (z : ℚ))
  else if metric = "views_delta_pct" then d.views_delta_pct
  else none

/-- Label resolution of nim_core.py lines 600-605:
`metrics.get("label") or TRACKED_VIDEOS.get(video_key, ...).get("label") or
video_key`, with Python falsiness of the empty string. -/
def resolveLabel (video_key : String) (metrics : Metrics) : String :=
  let fallback :=
    match TRACKED_VIDEOS.lookup video_key with
    | some meta => if meta.label = "" then video_key else meta.label
    | none => video_key
  match metrics.label with
  | some s => if s = "" then fallback else s
  | none => fallback

/-- The delta value used for ranking an entity key: the Delta entry for the
key (an empty record when the key is missing from the DeltaSet) queried for
the metric (nim_core.py lines 593-594). -/
def metricValue (delta_videos : List (String × Delta)) (metric : String)
    (video_key : String) : Option ℚ :=
  ((delta_videos.lookup video_key).getD Delta.allNA).getMetric metric

/-- One iteration of the row-construction loop of `get_top_videos_by_delta`
(nim_core.py lines 592-614): `none` when the metric delta is absent (the
`continue`), otherwise the constructed row. -/
def rowFor (delta_videos : List (String × Delta)) (metric : String)
    (video_key : String) (metrics : Metrics) : Option RankedRow :=
  match metricValue delta_videos metric video_key with
  | none => none
  | some delta_value =>
    some { video_key := video_key
           channel_name := metrics.channel_name.getD ""
           video_id := metrics.video_id.getD ""
           label := resolveLabel video_key metrics
           current_value := metrics.views.getD 0
           delta := delta_value }

/-- The `rows` list of `get_top_videos_by_delta` before sorting, in the
iteration order of the current snapshot's videos map. -/
def build_rows (current_snapshot : Snapshot) (deltas : DeltaSet)
    (metric : String) : List RankedRow :=
  current_snapshot.videos.filterMap (fun p => rowFor deltas.videos metric p.1 p.2)

/-- Comparison used by `rows.sort(key=lambda r: r["delta"], reverse=True)`:
descending by delta. -/
def rankGE (a b : RankedRow) : Prop := b.delta ≤ a.delta

instance : DecidableRel rankGE := fun a b => inferInstanceAs (Decidable (b.delta ≤ a.delta))

instance : IsTotal RankedRow rankGE := ⟨fun a b => le_total b.delta a.delta⟩

instance : IsTrans RankedRow rankGE := ⟨fun _ _ _ h1 h2 => le_trans h2 h1⟩

/-- `get_top_videos_by_delta` of nim_core.py lines 581-617: build the rows,
sort them stably in descending delta order, keep the first `top_n`; the
source defaults the metric to the views delta and `top_n` to 16. -/
def get_top_videos_by_delta (current_snapshot : Snapshot) (deltas : DeltaSet)
    (metric : String) (top_n : Nat) : List RankedRow :=
  ((build_rows current_snapshot deltas metric).insertionSort rankGE).take top_n

/-- Number of entities of the current snapshot whose metric delta is
defined (the entities that survive the absent-marker filter). -/
def eligibleCount (current_snapshot : Snapshot) (deltas : DeltaSet)
    (metric : String) : Nat :=
  (current_snapshot.videos.filter
    (fun p => (metricValue deltas.videos metric p.1).isSome)).length

/-- `load_previous_data` of nim_core.py lines 160-174.  The file system and
the JSON decoder are explicit parameters: `file` is the contents of the
snapshot file (`none` when the file does not exist) and `parse` is JSON
decoding (`none` for a decode error). -/
def load_previous_data (parse : String → Option Snapshot) (file : Option String) :
    Option Snapshot :=
  match file with
  | none => none
  | some text =>
    match parse text with
    | none => none
    | some previous_data => some previous_data

/-- The fake DeltaSet built by CLI option 2 and the web index route so that
the ranking helper sorts by current views. -/
def make_fake_deltas (snapshot : Snapshot) : DeltaSet :=
  ⟨snapshot.videos.map (fun p =>
    (p.1, { views_delta := some (p.2.views.getD 0)
            likes_delta := some 0
            comments_delta := some 0
            subscribers_delta := some 0
            views_delta_pct := none }))⟩

/-- CLI menu option 4 (nim_cli.py lines 193-204) as a function of the stored
snapshot and the snapshot the acquisition returned: compute deltas, rank,
then save the fetched snapshot unconditionally.  The pair is (displayed
ranking, store contents after the run). -/
def option_four_run (store : Option Snapshot) (fetched : Snapshot) :
    List RankedRow × Option Snapshot :=
  let previous_snapshot := store
  let deltas_all := compute_deltas_all previous_snapshot fetched
  let top_list := get_top_videos_by_delta fetched deltas_all "views_delta" 16
  (top_list, some fetched)

/-- CLI menu option 5 (nim_cli.py lines 219-244), after the 24h guard, as a
function of the stored snapshot and the snapshot the discovery build
returned: on an empty build, return to the menu leaving the store as it is;
otherwise rank by percentage delta and save the built snapshot. -/
def option_five_run (store : Option Snapshot) (built : Snapshot) :
    List RankedRow × Option Snapshot :=
  if built.videos.isEmpty then ([], store)
  else
    let previous_snapshot := store
    let deltas_all := compute_deltas_all previous_snapshot built
    let top_list := get_top_videos_by_delta built deltas_all "views_delta_pct" 16
    (top_list, some built)

/-- The web index route (nim_web.py lines 16-55) as a function of the stored
snapshot and the snapshot a discovery build would return: reuse a non-empty
stored snapshot; otherwise build, and save only when the build is
non-empty. -/
def web_index_run (store : Option Snapshot) (built : Snapshot) :
    List RankedRow × Option Snapshot :=
  let have_existing :=
    match store with
    | some snapshot => !snapshot.videos.isEmpty
    | none => false
  if have_existing then
    match store with
    | some snapshot =>
      (get_top_videos_by_delta snapshot (make_fake_deltas snapshot) "views_delta" 16, store)
    | none => ([], store)
  else
    if built.videos.isEmpty then ([], store)
    else
      (get_top_videos_by_delta built (make_fake_deltas built) "views_delta" 16, some built)

/-- The four numeric source fields paired with the Delta fields they feed
(views, likes, comments, subscribers). -/
def fieldPairs : List ((Metrics → Option Int) × (Delta → Option Int)) :=
  [ (Metrics.views, Delta.views_delta),
    (Metrics.likes, Delta.likes_delta),
    (Metrics.comments, Delta.comments_delta),
    (Metrics.subscribers, Delta.subscribers_delta) ]

/-- Sample current Metrics used by the concrete instantiations below. -/
def sampleMetricsA : Metrics :=
  { channel_name := some "ChanA", video_id := some "vidA", views := some 150,
    likes := some 10, comments := some 3, subscribers := some 7, label := some "Label A" }

/-- Sample previous Metrics used by the concrete instantiations below. -/
def samplePrevMetricsA : Metrics :=
  { views := some 100, likes := some 4, comments := some 1, subscribers := some 5 }

/-- Sample previous snapshot used by the concrete instantiations below. -/
def samplePrev : Snapshot := ⟨"2024-01-01T00:00:00", [("A", samplePrevMetricsA)]⟩

/-- Sample current snapshot (key B is new since the baseline). -/
def sampleCurr : Snapshot :=
  ⟨"2024-01-02T00:00:00", [("A", sampleMetricsA), ("B", { views := some 10 })]⟩

/-- A handcrafted DeltaSet with integer-valued deltas for key A only. -/
def sampleDeltaSet : DeltaSet :=
  ⟨[("A", ⟨some 50, some 6, some 2, some 2, none⟩)]⟩

/-- An empty snapshot, as a zero-entity acquisition result. -/
def emptySnap : Snapshot := ⟨"2024-01-03T00:00:00", []⟩

/-! Helper lemmas about association-list lookup. -/

theorem lookup_map_keyed {α β : Type} (g : String → α → β) :
    ∀ (l : List (String × α)) (k : String),
      (l.map (fun p => (p.1, g p.1 p.2))).lookup k = (l.lookup k).map (g k)
  | [], _ => rfl
  | (a, b) :: l, k => by
    cases h : (k == a) with
    | false => simpa [List.lookup, h] using lookup_map_keyed g l k
    | true =>
      have hk : k = a := eq_of_beq h
      subst hk
      simp [List.lookup, h]

theorem lookup_of_mem_nodup {α : Type} :
    ∀ {l : List (String × α)} {k : String} {m : α},
      (l.map Prod.fst).Nodup → (k, m) ∈ l → l.lookup k = some m
  | (a, b) :: l, k, m, hnd, hm => by
    have hnd' : a ∉ l.map Prod.fst ∧ (l.map Prod.fst).Nodup :=
      List.nodup_cons.mp (by simpa using hnd)
    rcases List.mem_cons.mp hm with h | h
    · cases h
      simp [List.lookup]
    · have hne : (k == a) = false := by
        refine beq_eq_false_iff_ne.mpr ?_
        intro he
        subst he
        exact hnd'.1 (List.mem_map.mpr ⟨(k, m), h, rfl⟩)
      simpa [List.lookup, hne] using lookup_of_mem_nodup hnd'.2 h

theorem lookup_isSome_of_mem_keys {α : Type} :
    ∀ {l : List (String × α)} {k : String},
      k ∈ l.map Prod.fst → (l.lookup k).isSome = true
  | (a, b) :: l, k, h => by
    cases hb : (k == a) with
    | true => simp [List.lookup, hb]
    | false =>
      have hk : k ∈ l.map Prod.fst := by
        rcases List.mem_cons.mp (show k ∈ a :: l.map Prod.fst from h) with h1 | h1
        · exact absurd (beq_iff_eq.mpr h1) (by simp [hb])
        · exact h1
      simpa [List.lookup, hb] using lookup_isSome_of_mem_keys hk

/-! Helper lemmas about the delta computation. -/

theorem deltaField_eq_some_iff (fm : Metrics → Option Int) (m pm : Metrics) (z : Int) :
    deltaField fm m pm = some z ↔
      ∃ c p, fm m = some c ∧ fm pm = some p ∧ z = c - p := by
  unfold deltaField
  cases hc : fm m <;> cases hp : fm pm <;> simp [eq_comm]

theorem deltaField_eq_none_iff (fm : Metrics → Option Int) (m pm : Metrics) :
    deltaField fm m pm = none ↔ fm m = none ∨ fm pm = none := by
  unfold deltaField
  cases hc : fm m <;> cases hp : fm pm <;> simp

theorem fd_deltaFor {fm : Metrics → Option Int} {fd : Delta → Option Int}
    (hf : (fm, fd) ∈ fieldPairs) (pv : List (String × Metrics)) (k : String)
    (m : Metrics) :
    fd (deltaFor pv k m) =
      match pv.lookup k with
      | none => none
      | some pm => deltaField fm m pm := by
  simp only [fieldPairs, List.mem_cons, List.not_mem_nil, or_false, Prod.mk.injEq] at hf
  rcases hf with ⟨rfl, rfl⟩ | ⟨rfl, rfl⟩ | ⟨rfl, rfl⟩ | ⟨rfl, rfl⟩ <;>
    cases h : pv.lookup k <;> simp [deltaFor, h, Delta.allNA]

theorem pct_deltaFor (pv : List (String × Metrics)) (k : String) (m : Metrics) :
    (deltaFor pv k m).views_delta_pct =
      match pv.lookup k with
      | none => none
      | some pm =>
        match deltaField Metrics.views m pm, pm.views with
        | some vd, some p => if 0 < p then some (((vd : ℚ) / (p : ℚ)) * 100) else none
        | some _, none => none
        | none, _ => none := by
  cases h : pv.lookup k with
  | none => simp [deltaFor, h, Delta.allNA]
  | some pm =>
    simp only [deltaFor, h]
    cases hvd : deltaField Metrics.views m pm <;> cases hpv : pm.views <;> simp [hvd, hpv]

/-! The claims. -/

/-- C1: for every pair of snapshots and every entity key of the current
snapshot, each of the four numeric Delta fields equals the signed difference
of the current and previous source field exactly when the key is present in
the previous videos map and the field is present in both Metrics records,
and holds the absent marker in every other case. -/
theorem c1_numeric_delta_defined_iff (prev curr : Snapshot)
    (hnd : (curr.videos.map Prod.fst).Nodup)
    (k : String) (m : Metrics) (hk : (k, m) ∈ curr.videos)
    (fm : Metrics → Option Int) (fd : Delta → Option Int)
    (hf : (fm, fd) ∈ fieldPairs) :
    ∃ d, (compute_deltas_all (some prev) curr).videos.lookup k = some d ∧
      (∀ z : Int, fd d = some z ↔
        ∃ pm c p, prev.videos.lookup k = some pm ∧ fm m = some c ∧ fm pm = some p ∧
          z = c - p) ∧
      (fd d = none ↔
        prev.videos.lookup k = none ∨
        ∃ pm, prev.videos.lookup k = some pm ∧ (fm m = none ∨ fm pm = none)) := by
  refine ⟨deltaFor prev.videos k m, ?_, ?_, ?_⟩
  · show (curr.videos.map
        (fun p => (p.1, deltaFor prev.videos p.1 p.2))).lookup k = _
    rw [lookup_map_keyed (deltaFor prev.videos) curr.videos k,
      lookup_of_mem_nodup hnd hk]
    rfl
  · intro z
    rw [fd_deltaFor hf]
    cases h : prev.videos.lookup k with
    | none => simp
    | some pm => simp [deltaField_eq_some_iff]
  · rw [fd_deltaFor hf]
    cases h : prev.videos.lookup k with
    | none => simp
    | some pm => simp [deltaField_eq_none_iff]

/-- Witness for C1 at a concrete pair of snapshots, key A and the views
field. -/
theorem c1_witness :
    ∃ d, (compute_deltas_all (some samplePrev) sampleCurr).videos.lookup "A" = some d ∧
      (∀ z : Int, d.views_delta = some z ↔
        ∃ pm c p, samplePrev.videos.lookup "A" = some pm ∧
          sampleMetricsA.views = some c ∧ pm.views = some p ∧ z = c - p) ∧
      (d.views_delta = none ↔
        samplePrev.videos.lookup "A" = none ∨
        ∃ pm, samplePrev.videos.lookup "A" = some pm ∧
          (sampleMetricsA.views = none ∨ pm.views = none)) :=
  c1_numeric_delta_defined_iff samplePrev sampleCurr (by decide) "A" sampleMetricsA
    (by decide) Metrics.views Delta.views_delta (by simp [fieldPairs])

/-- C2: for every pair of snapshots and every entity key of the current
snapshot, the percentage views delta is defined exactly when the views
delta is defined and the previous views count is strictly positive, in
which case it equals (views_delta / previous_views) * 100; a previous views
count of zero always yields the absent marker. -/
theorem c2_pct_defined_iff (prev curr : Snapshot)
    (hnd : (curr.videos.map Prod.fst).Nodup)
    (k : String) (m : Metrics) (hk : (k, m) ∈ curr.videos) :
    ∃ d, (compute_deltas_all (some prev) curr).videos.lookup k = some d ∧
      (∀ q : ℚ, d.views_delta_pct = some q ↔
        ∃ z pm pv, d.views_delta = some z ∧ prev.videos.lookup k = some pm ∧
          pm.views = some pv ∧ 0 < pv ∧ q = ((z : ℚ) / (pv : ℚ)) * 100) ∧
      (∀ pm, prev.videos.lookup k = some pm → pm.views = some 0 →
        d.views_delta_pct = none) := by
  have hviews : (Metrics.views, Delta.views_delta) ∈ fieldPairs := by simp [fieldPairs]
  refine ⟨deltaFor prev.videos k m, ?_, ?_, ?_⟩
  · show (curr.videos.map
        (fun p => (p.1, deltaFor prev.videos p.1 p.2))).lookup k = _
    rw [lookup_map_keyed (deltaFor prev.videos) curr.videos k,
      lookup_of_mem_nodup hnd hk]
    rfl
  · intro q
    rw [pct_deltaFor, fd_deltaFor hviews]
    cases h : prev.videos.lookup k with
    | none => simp
    | some pm =>
      cases hvd : deltaField Metrics.views m pm with
      | none => simp [hvd]
      | some vd =>
        cases hpv : pm.views with
        | none => simp [hvd, hpv]
        | some p =>
          by_cases hp : 0 < p
          · simp [hvd, hpv, hp, eq_comm]
          · simp [hvd, hpv, hp]
  · intro pm hlook hzero
    rw [pct_deltaFor, hlook]
    cases hvd : deltaField Metrics.views m pm with
    | none => simp [hvd]
    | some vd => simp [hvd, hzero]

/-- Witness for C2 at a concrete pair of snapshots and key A. -/
theorem c2_witness :
    ∃ d, (compute_deltas_all (some samplePrev) sampleCurr).videos.lookup "A" = some d ∧
      (∀ q : ℚ, d.views_delta_pct = some q ↔
        ∃ z pm pv, d.views_delta = some z ∧ samplePrev.videos.lookup "A" = some pm ∧
          pm.views = some pv ∧ 0 < pv ∧ q = ((z : ℚ) / (pv : ℚ)) * 100) ∧
      (∀ pm, samplePrev.videos.lookup "A" = some pm → pm.views = some 0 →
        d.views_delta_pct = none) :=
  c2_pct_defined_iff samplePrev sampleCurr (by decide) "A" sampleMetricsA (by decide)

/-- C3: with no previous snapshot, every entity key of the current snapshot
is mapped to the all-absent Delta, the result covering exactly the current
keys; no failure is possible since the function is total. -/
theorem c3_no_baseline (curr : Snapshot) (k : String)
    (hk : k ∈ curr.videos.map Prod.fst) :
    (compute_deltas_all none curr).videos.lookup k = some Delta.allNA ∧
    (compute_deltas_all none curr).videos.map Prod.fst = curr.videos.map Prod.fst := by
  constructor
  · have h1 : (compute_deltas_all none curr).videos.lookup k =
        (curr.videos.lookup k).map (fun _ => Delta.allNA) :=
      lookup_map_keyed (fun _ _ => Delta.allNA) curr.videos k
    have h2 := lookup_isSome_of_mem_keys hk
    rcases hv : curr.videos.lookup k with _ | v
    · rw [hv] at h2
      simp at h2
    · rw [h1, hv]
      rfl
  · show (curr.videos.map (fun p => (p.1, Delta.allNA))).map Prod.fst = _
    simp

/-- Witness for C3 at a concrete current snapshot and key A. -/
theorem c3_witness :
    (compute_deltas_all none sampleCurr).videos.lookup "A" = some Delta.allNA ∧
    (compute_deltas_all none sampleCurr).videos.map Prod.fst =
      sampleCurr.videos.map Prod.fst :=
  c3_no_baseline sampleCurr "A" (by decide)

/-! Helper lemmas about the ranker. -/

theorem rowFor_eq_map (dv : List (String × Delta)) (metric k : String) (mt : Metrics) :
    rowFor dv metric k mt = (metricValue dv metric k).map
      (fun delta_value =>
        { video_key := k, channel_name := mt.channel_name.getD "",
          video_id := mt.video_id.getD "", label := resolveLabel k mt,
          current_value := mt.views.getD 0, delta := delta_value }) := by
  unfold rowFor
  cases metricValue dv metric k <;> rfl

theorem rowFor_isSome (dv : List (String × Delta)) (metric k : String) (mt : Metrics) :
    (rowFor dv metric k mt).isSome = (metricValue dv metric k).isSome := by
  rw [rowFor_eq_map]
  cases metricValue dv metric k <;> rfl

theorem rowFor_some {dv : List (String × Delta)} {metric k : String} {mt : Metrics}
    {r : RankedRow} (h : rowFor dv metric k mt = some r) :
    r.video_key = k ∧ metricValue dv metric k = some r.delta ∧
    r.label = resolveLabel k mt ∧ r.current_value = mt.views.getD 0 := by
  rw [rowFor_eq_map] at h
  cases hv : metricValue dv metric k with
  | none =>
    rw [hv] at h
    cases h
  | some dval =>
    rw [hv] at h
    simp only [Option.map_some', Option.some.injEq] at h
    subst h
    simp [hv]

theorem mem_build_rows {curr : Snapshot} {ds : DeltaSet} {metric : String}
    {r : RankedRow} :
    r ∈ build_rows curr ds metric ↔
      ∃ k mt, (k, mt) ∈ curr.videos ∧ rowFor ds.videos metric k mt = some r := by
  unfold build_rows
  rw [List.mem_filterMap]
  constructor
  · rintro ⟨⟨k, mt⟩, hm, he⟩
    exact ⟨k, mt, hm, he⟩
  · rintro ⟨k, mt, hm, he⟩
    exact ⟨(k, mt), hm, he⟩

theorem length_filterMap_isSome {α β : Type} (f : α → Option β) :
    ∀ l : List α, (l.filterMap f).length = (l.filter (fun a => (f a).isSome)).length
  | [] => rfl
  | a :: l => by
    cases h : f a <;>
      simp [List.filterMap_cons, h, List.filter_cons, length_filterMap_isSome f l]

theorem length_build_rows (curr : Snapshot) (ds : DeltaSet) (metric : String) :
    (build_rows curr ds metric).length = eligibleCount curr ds metric := by
  unfold build_rows eligibleCount
  rw [length_filterMap_isSome]
  congr 1
  apply List.filter_congr
  intro p _
  exact rowFor_isSome ds.videos metric p.1 p.2

theorem mem_build_rows_of_mem_top {curr : Snapshot} {ds : DeltaSet} {metric : String}
    {n : Nat} {r : RankedRow} (h : r ∈ get_top_videos_by_delta curr ds metric n) :
    r ∈ build_rows curr ds metric := by
  unfold get_top_videos_by_delta at h
  have h1 : r ∈ (build_rows curr ds metric).insertionSort rankGE :=
    List.mem_of_mem_take h
  exact (List.mem_insertionSort rankGE).mp h1

/-! The claims about the ranker. -/

/-- C4: the ranking is sorted in descending delta order, its length is the
minimum of `n` and the number of entities with a defined metric delta, and
when `n` covers that count every such entity appears. -/
theorem c4_top_length_sorted (curr : Snapshot) (ds : DeltaSet) (metric : String)
    (n : Nat) (hn : 0 < n) :
    (get_top_videos_by_delta curr ds metric n).length =
      min n (eligibleCount curr ds metric) ∧
    List.Sorted rankGE (get_top_videos_by_delta curr ds metric n) ∧
    (eligibleCount curr ds metric ≤ n →
      ∀ k mt, (k, mt) ∈ curr.videos → (metricValue ds.videos metric k).isSome = true →
        ∃ r ∈ get_top_videos_by_delta curr ds metric n, r.video_key = k) := by
  refine ⟨?_, ?_, ?_⟩
  · unfold get_top_videos_by_delta
    rw [List.length_take, List.length_insertionSort, length_build_rows]
  · exact List.Pairwise.sublist (List.take_sublist _ _)
      (List.sorted_insertionSort rankGE _)
  · intro hle k mt hk hsome
    have hrow : ∃ r, rowFor ds.videos metric k mt = some r := by
      have hs := rowFor_isSome ds.videos metric k mt
      rw [hsome] at hs
      exact Option.isSome_iff_exists.mp hs
    obtain ⟨r, hr⟩ := hrow
    refine ⟨r, ?_, (rowFor_some hr).1⟩
    unfold get_top_videos_by_delta
    rw [List.take_of_length_le]
    · exact (List.mem_insertionSort rankGE).mpr (mem_build_rows.mpr ⟨k, mt, hk, hr⟩)
    · rw [List.length_insertionSort, length_build_rows]
      exact hle

/-- Witness for C4 at a concrete snapshot, DeltaSet and n. -/
theorem c4_witness :
    (get_top_videos_by_delta sampleCurr sampleDeltaSet "likes_delta" 10).length =
      min 10 (eligibleCount sampleCurr sampleDeltaSet "likes_delta") ∧
    List.Sorted rankGE (get_top_videos_by_delta sampleCurr sampleDeltaSet "likes_delta" 10) ∧
    (eligibleCount sampleCurr sampleDeltaSet "likes_delta" ≤ 10 →
      ∀ k mt, (k, mt) ∈ sampleCurr.videos →
        (metricValue sampleDeltaSet.videos "likes_delta" k).isSome = true →
        ∃ r ∈ get_top_videos_by_delta sampleCurr sampleDeltaSet "likes_delta" 10,
          r.video_key = k) :=
  c4_top_length_sorted sampleCurr sampleDeltaSet "likes_delta" 10 (by decide)

/-- C5: every row of the ranking carries a defined metric delta for its
entity key equal to the row's delta — an entity whose metric delta is
absent never appears, with a synthetic zero or otherwise. -/
theorem c5_no_absent_metric_in_rows (curr : Snapshot) (ds : DeltaSet)
    (metric : String) (n : Nat) (r : RankedRow)
    (hr : r ∈ get_top_videos_by_delta curr ds metric n) :
    metricValue ds.videos metric r.video_key = some r.delta := by
  obtain ⟨k, mt, hk, he⟩ := mem_build_rows.mp (mem_build_rows_of_mem_top hr)
  obtain ⟨hkey, hval, _, _⟩ := rowFor_some he
  rw [hkey]
  exact hval

/-- Witness for C5 at a concrete ranking row. -/
theorem c5_witness :
    metricValue sampleDeltaSet.videos "likes_delta"
        (RankedRow.video_key ⟨"A", "ChanA", "vidA", "Label A", 150, 6⟩) =
      some (RankedRow.delta ⟨"A", "ChanA", "vidA", "Label A", 150, 6⟩) :=
  c5_no_absent_metric_in_rows sampleCurr sampleDeltaSet "likes_delta" 10
    ⟨"A", "ChanA", "vidA", "Label A", 150, 6⟩ (by decide)

theorem resolveLabel_of_label_ne (k : String) (mt : Metrics) (s : String)
    (hs : mt.label = some s) (hne : s ≠ "") : resolveLabel k mt = s := by
  unfold resolveLabel
  rw [hs]
  simp [hne]

theorem resolveLabel_fallback (k : String) (mt : Metrics)
    (h0 : mt.label = none ∨ mt.label = some "") :
    resolveLabel k mt =
      (match TRACKED_VIDEOS.lookup k with
       | some meta => if meta.label = "" then k else meta.label
       | none => k) := by
  unfold resolveLabel
  rcases h0 with h0 | h0 <;> rw [h0] <;> simp

/-- C6: every row of the ranking takes its label from the entity's Metrics
record when that carries a non-empty label (the registry fallback never
overrides it), else from the static registry when that carries a non-empty
label, else the entity key itself. -/
theorem c6_label_resolution (curr : Snapshot) (ds : DeltaSet) (metric : String)
    (n : Nat) (r : RankedRow)
    (hr : r ∈ get_top_videos_by_delta curr ds metric n) :
    ∃ k mt, (k, mt) ∈ curr.videos ∧ r.video_key = k ∧
      (∀ s, mt.label = some s → s ≠ "" → r.label = s) ∧
      ((mt.label = none ∨ mt.label = some "") →
        ∀ meta, TRACKED_VIDEOS.lookup k = some meta → ¬ meta.label = "" →
          r.label = meta.label) ∧
      ((mt.label = none ∨ mt.label = some "") →
        (∀ meta, TRACKED_VIDEOS.lookup k = some meta → meta.label = "") →
        r.label = k) := by
  obtain ⟨k, mt, hk, he⟩ := mem_build_rows.mp (mem_build_rows_of_mem_top hr)
  obtain ⟨hkey, _, hlab, _⟩ := rowFor_some he
  refine ⟨k, mt, hk, hkey, ?_, ?_, ?_⟩
  · intro s hs hne
    rw [hlab]
    exact resolveLabel_of_label_ne k mt s hs hne
  · intro h0 meta hmeta hne
    rw [hlab, resolveLabel_fallback k mt h0, hmeta]
    simp [hne]
  · intro h0 hall
    rw [hlab, resolveLabel_fallback k mt h0]
    cases hm : TRACKED_VIDEOS.lookup k with
    | none => rfl
    | some meta => simp [hall meta hm]

/-- Witness for C6 at a concrete ranking row whose Metrics label is
non-empty. -/
theorem c6_witness :
    ∃ k mt, (k, mt) ∈ sampleCurr.videos ∧
      RankedRow.video_key ⟨"A", "ChanA", "vidA", "Label A", 150, 6⟩ = k ∧
      (∀ s, mt.label = some s → s ≠ "" →
        RankedRow.label ⟨"A", "ChanA", "vidA", "Label A", 150, 6⟩ = s) ∧
      ((mt.label = none ∨ mt.label = some "") →
        ∀ meta, TRACKED_VIDEOS.lookup k = some meta → ¬ meta.label = "" →
          RankedRow.label ⟨"A", "ChanA", "vidA", "Label A", 150, 6⟩ = meta.label) ∧
      ((mt.label = none ∨ mt.label = some "") →
        (∀ meta, TRACKED_VIDEOS.lookup k = some meta → meta.label = "") →
        RankedRow.label ⟨"A", "ChanA", "vidA", "Label A", 150, 6⟩ = k) :=
  c6_label_resolution sampleCurr sampleDeltaSet "likes_delta" 10
    ⟨"A", "ChanA", "vidA", "Label A", 150, 6⟩ (by decide)

/-- C9: every row of the ranking carries the entity's current views count
(defaulting to zero when the views field is missing) as `current_value`,
whatever metric the ranking used. -/
theorem c9_current_value_is_views (curr : Snapshot) (ds : DeltaSet)
    (metric : String) (n : Nat) (r : RankedRow)
    (hr : r ∈ get_top_videos_by_delta curr ds metric n) :
    ∃ k mt, (k, mt) ∈ curr.videos ∧ r.video_key = k ∧
      r.current_value = mt.views.getD 0 := by
  obtain ⟨k, mt, hk, he⟩ := mem_build_rows.mp (mem_build_rows_of_mem_top hr)
  obtain ⟨hkey, _, _, hcur⟩ := rowFor_some he
  exact ⟨k, mt, hk, hkey, hcur⟩

/-- Witness for C9 at a concrete ranking row, ranked by the likes delta. -/
theorem c9_witness :
    ∃ k mt, (k, mt) ∈ sampleCurr.videos ∧
      RankedRow.video_key ⟨"A", "ChanA", "vidA", "Label A", 150, 6⟩ = k ∧
      RankedRow.current_value ⟨"A", "ChanA", "vidA", "Label A", 150, 6⟩ =
        mt.views.getD 0 :=
  c9_current_value_is_views sampleCurr sampleDeltaSet "likes_delta" 10
    ⟨"A", "ChanA", "vidA", "Label A", 150, 6⟩ (by decide)

/-! Stability of the descending sort, for C10. -/

theorem filter_orderedInsert_of_eq (d : ℚ) (a : RankedRow) (ha : a.delta = d) :
    ∀ l : List RankedRow,
      (List.orderedInsert rankGE a l).filter (fun r => decide (r.delta = d)) =
        a :: l.filter (fun r => decide (r.delta = d))
  | [] => by simp [ha]
  | b :: l => by
    by_cases h : rankGE a b
    · simp only [List.orderedInsert, if_pos h]
      simp [ha]
    · have hbd : ¬ b.delta = d := by
        intro hb
        exact h (le_of_eq (hb.trans ha.symm))
      simp only [List.orderedInsert, if_neg h]
      simp [hbd, filter_orderedInsert_of_eq d a ha l]

theorem filter_orderedInsert_of_ne (d : ℚ) (a : RankedRow) (ha : ¬ a.delta = d) :
    ∀ l : List RankedRow,
      (List.orderedInsert rankGE a l).filter (fun r => decide (r.delta = d)) =
        l.filter (fun r => decide (r.delta = d))
  | [] => by simp [ha]
  | b :: l => by
    by_cases h : rankGE a b
    · simp only [List.orderedInsert, if_pos h]
      simp [ha]
    · simp only [List.orderedInsert, if_neg h]
      by_cases hb : b.delta = d <;>
        simp [hb, filter_orderedInsert_of_ne d a ha l]

theorem filter_insertionSort (d : ℚ) :
    ∀ l : List RankedRow,
      (l.insertionSort rankGE).filter (fun r => decide (r.delta = d)) =
        l.filter (fun r => decide (r.delta = d))
  | [] => rfl
  | a :: l => by
    show (List.orderedInsert rankGE a (l.insertionSort rankGE)).filter
        (fun r => decide (r.delta = d)) = _
    by_cases h : a.delta = d
    · rw [filter_orderedInsert_of_eq d a h]
      simp [h, filter_insertionSort d l]
    · rw [filter_orderedInsert_of_ne d a h]
      simp [h, filter_insertionSort d l]

/-- C10: among rows with equal delta values the ranking preserves the order
of `build_rows`, which iterates the current snapshot's videos map in
order — the rows of the output with any fixed delta value form a prefix of
the equally-valued rows in snapshot order. -/
theorem c10_ties_keep_snapshot_order (curr : Snapshot) (ds : DeltaSet)
    (metric : String) (n : Nat) (d : ℚ) :
    (get_top_videos_by_delta curr ds metric n).filter (fun r => decide (r.delta = d)) <+:
      (build_rows curr ds metric).filter (fun r => decide (r.delta = d)) := by
  unfold get_top_videos_by_delta
  refine ⟨(((build_rows curr ds metric).insertionSort rankGE).drop n).filter
    (fun r => decide (r.delta = d)), ?_⟩
  rw [← List.filter_append, List.take_append_drop, filter_insertionSort]

/-! The caller-side empty-result policy (C7). -/

/-- C7 counterexample: CLI option 4 (nim_cli.py lines 193-204) persists the
fetched snapshot even when the acquisition yielded zero entities, replacing
the prior stored snapshot — so not every acquisition pathway skips
persisting on an empty result. -/
theorem c7_counterexample :
    emptySnap.videos = [] ∧
    (option_four_run (some samplePrev) emptySnap).2 = some emptySnap ∧
    (option_four_run (some samplePrev) emptySnap).2 ≠ some samplePrev := by
  refine ⟨rfl, rfl, ?_⟩
  decide

/-- C7 amended: for the discovery-based pathways — CLI option 5 and the web
index route — an acquisition yielding zero entities leaves the stored
snapshot unchanged. -/
theorem c7_empty_build_preserves_store (store : Option Snapshot) (built : Snapshot)
    (h : built.videos = []) :
    (option_five_run store built).2 = store ∧ (web_index_run store built).2 = store := by
  constructor
  · unfold option_five_run
    simp [h]
  · unfold web_index_run
    cases store with
    | none => simp [h]
    | some s => by_cases hs : s.videos.isEmpty <;> simp [h, hs]

/-- Witness for the amended C7 at a concrete store and empty build. -/
theorem c7_witness :
    (option_five_run (some samplePrev) emptySnap).2 = some samplePrev ∧
    (web_index_run (some samplePrev) emptySnap).2 = some samplePrev :=
  c7_empty_build_preserves_store (some samplePrev) emptySnap rfl

/-! The snapshot-store read contract (C8). -/

/-- C8: `load_previous_data` is total — a missing snapshot file or a JSON
decode failure yield the absent value rather than an error — and the delta
engine maps an absent result to the normal all-absent DeltaSet. -/
theorem c8_load_degrades_to_absent (parse : String → Option Snapshot)
    (file : Option String) (current : Snapshot) :
    (file = none → load_previous_data parse file = none) ∧
    (∀ text, file = some text → parse text = none →
      load_previous_data parse file = none) ∧
    (load_previous_data parse file = none →
      compute_deltas_all (load_previous_data parse file) current =
        ⟨current.videos.map (fun p => (p.1, Delta.allNA))⟩) := by
  refine ⟨?_, ?_, ?_⟩
  · intro h
    rw [h]
    rfl
  · intro text h hp
    simp [load_previous_data, h, hp]
  · intro h
    rw [h]
    rfl

/-- Witness for C8 with a decoder that always fails, on a missing file and
on an unparsable file. -/
theorem c8_witness :
    load_previous_data (fun _ => none) none = none ∧
    load_previous_data (fun _ => none) (some "not json") = none ∧
    compute_deltas_all (load_previous_data (fun _ => none) (some "not json")) sampleCurr =
      ⟨sampleCurr.videos.map (fun p => (p.1, Delta.allNA))⟩ := by
  refine ⟨(c8_load_degrades_to_absent (fun _ => none) none sampleCurr).1 rfl, ?_, ?_⟩
  · exact (c8_load_degrades_to_absent (fun _ => none) (some "not json") sampleCurr).2.1
      "not json" rfl rfl
  · exact (c8_load_degrades_to_absent (fun _ => none) (some "not json") sampleCurr).2.2
      ((c8_load_degrades_to_absent (fun _ => none) (some "not json") sampleCurr).2.1
        "not json" rfl rfl)

end NimDashboard
